import Mathlib

/-!
# Verification of the nexus-frontend analytics aggregator and route guard

This file gives a shallow embedding, in Lean 4, of the client-side logic of the
nexus-frontend repository:

* the route-guard `middleware` (protected paths / auth routes / redirects),
* the dashboard aggregation `processGraphQLData` (filtering by date range,
  comparison baseline, occupancy, ADR, RevPAR, category distributions,
  time series, top guests),
* the `calculateNights` helper of the booking-details panel.

Modelling conventions:

* JavaScript `Date` values are modelled as their millisecond timestamps
  (`Int`), i.e. `Date.getTime()`; parsing a date string is the identity on
  that timestamp.  Calendar-day bucketing (`format(d, 'yyyy-MM-dd')`) is
  modelled as flooring the timestamp to a day index `t / msPerDay`.
* JavaScript numbers used as money or counts are modelled as exact integers
  (`Int`); the real-division-then-round idioms `Math.round(a / b)` and
  `Math.ceil(a / b)` are modelled exactly on rationals via `jsRound` and
  `jsCeilDiv`.
* `Math.random()` is modelled by explicit streams `Nat → Int` passed as
  parameters, one per call site.
* Absent optional fields are `Option`; JavaScript falsiness of `0` and of the
  empty string is modelled explicitly at each `||` site.
-/

/-- Milliseconds per day, the constant `1000 * 60 * 60 * 24` of the source. -/
def msPerDay : Int := 86400000

/-- `Math.ceil (a / b)` for integers `a` and positive `b`, computed exactly:
ceiling division via floor division (`Int./` is Euclidean, i.e. floor for
positive divisors). -/
def jsCeilDiv (a b : Int) : Int := -((-a) / b)

/-- `Math.round (n / d)` for integers `n` and positive `d`, computed exactly:
JavaScript rounds half toward `+∞`, i.e. `⌊n/d + 1/2⌋ = ⌊(2n + d) / (2d)⌋`. -/
def jsRound (n d : Int) : Int := (2 * n + d) / (2 * d)

section Middleware

/-- The fixed list `protectedPaths` of the middleware configuration. -/
def protectedPaths : List String :=
  ["/", "/dashboard", "/profile", "/settings", "/admin", "/hotel-setup",
   "/hotels/settings"]

/-- The fixed list `authRoutes` of the middleware configuration. -/
def authRoutes : List String := ["/login", "/signup", "/forgot-password"]

/-- `pathname === p || pathname.startsWith(p + "/")`: the membership test the
middleware applies to both path lists.  `startsWith` is embedded as a
character-list prefix test. -/
def pathMatches (pathname p : String) : Bool :=
  pathname = p || (p ++ "/").data.isPrefixOf pathname.data

/-- The three possible outcomes of the middleware. -/
inductive MiddlewareResult where
  | redirectLogin (callbackUrl : String)
  | redirectDashboard
  | next
  deriving DecidableEq, Repr

/-- The `middleware` function: `hasToken` is whether `getToken` returned a
token.  Protected paths without a token redirect to `/login` carrying the
pathname as `callbackUrl`; auth routes with a token redirect to
`/dashboard`; everything else falls through to `NextResponse.next()`. -/
def middleware (pathname : String) (hasToken : Bool) : MiddlewareResult :=
  if protectedPaths.any (fun p => pathMatches pathname p) && !hasToken then
    .redirectLogin pathname
  else if authRoutes.any (fun p => pathMatches pathname p) && hasToken then
    .redirectDashboard
  else
    .next

end Middleware

section DataModel

/-- Guest sub-record of a booking.  Absent name parts and absent email are
modelled by the empty string, which is exactly what JavaScript falsiness
tests (`firstName || ''`, `if (booking.guest?.email)`) distinguish. -/
structure Guest where
  firstName : String
  lastName : String
  email : String
  deriving DecidableEq, Repr

/-- A booking record, restricted to the fields `processGraphQLData` reads.
`checkInDate` and `checkOutDate` are the parsed timestamps (ms). -/
structure Booking where
  id : String
  roomId : String
  guest : Guest
  bookingSource : Option String
  checkInDate : Int
  checkOutDate : Int
  roomType : String
  bookingStatus : String
  totalAmount : Int
  numberOfGuests : Option Int
  deriving DecidableEq, Repr

/-- A room record, restricted to the fields the aggregator reads. -/
structure Room where
  id : String
  roomType : String
  status : String
  isActive : Bool
  floor : Option Int
  deriving DecidableEq, Repr

/-- The hotel record fields the aggregator reads. -/
structure Hotel where
  id : String
  floorCount : Option Int
  roomCount : Option Int
  deriving DecidableEq, Repr

/-- The date range, both endpoints present (the aggregator throws otherwise;
we model only the non-throwing path).  `fromDate`/`toDate` are the `from`/`to`
timestamps. -/
structure DateRange where
  fromDate : Int
  toDate : Int
  deriving DecidableEq, Repr

/-- A `{name, value}` chart entry. -/
structure ChartDataItem where
  name : String
  value : Int
  deriving DecidableEq, Repr

/-- A daily aggregation bucket of `bookingsByDate` / `bookingTrends`:
`day` is the calendar-day index (timestamp floored to days). -/
structure DayAgg where
  day : Int
  count : Int
  revenue : Int
  deriving DecidableEq, Repr

/-- A `{date, revenue}` point of `revenueTrends`. -/
structure RevenuePoint where
  day : Int
  revenue : Int
  deriving DecidableEq, Repr

/-- A `{date, occupancy}` point of `occupancyTimeline`: `date` is the
timestamp of the day the while-loop visits. -/
structure OccPoint where
  date : Int
  occupancy : Int
  deriving DecidableEq, Repr

/-- A top-guest entry. -/
structure GuestItem where
  name : String
  email : String
  bookings : Int
  totalSpent : Int
  deriving DecidableEq, Repr

/-- The `overview` metrics object. -/
structure OverviewMetrics where
  totalBookings : Int
  totalBookingsChange : Int
  occupancyRate : Int
  occupancyRateChange : Int
  totalRevenue : Int
  totalRevenueChange : Int
  averageDailyRate : Int
  averageDailyRateChange : Int
  revPAR : Int
  totalGuests : Int
  totalRooms : Int
  deriving DecidableEq, Repr

/-- The full dashboard payload assembled by `processGraphQLData`. -/
structure DashboardData where
  overview : OverviewMetrics
  recentBookings : List Booking
  roomTypeDistribution : List ChartDataItem
  bookingTrends : List DayAgg
  bookingSources : List ChartDataItem
  bookingStatus : List ChartDataItem
  roomStatus : List ChartDataItem
  roomTypePerformance : List ChartDataItem
  floorOccupancy : List ChartDataItem
  occupancyTimeline : List OccPoint
  guestTypes : List ChartDataItem
  stayDuration : List ChartDataItem
  guestSatisfaction : List ChartDataItem
  topGuests : List GuestItem
  guestDemographics : List ChartDataItem
  revenueTrends : List RevenuePoint
  revenueByRoomType : List ChartDataItem
  paymentMethods : List ChartDataItem
  deriving Repr

end DataModel

section Aggregator

/-- Date-range filter: bookings whose check-in timestamp lies in
`[from, to]` inclusive. -/
def filteredBookings (bookings : List Booking) (dr : DateRange) : List Booking :=
  bookings.filter fun b =>
    decide (dr.fromDate ≤ b.checkInDate) && decide (b.checkInDate ≤ dr.toDate)

/-- `subDays(dateRange.from, dateRange.to.getTime() - dateRange.from.getTime())`:
date-fns `subDays d n` subtracts `n` *days*; the source passes the range
length in *milliseconds* as `n`. -/
def previousPeriodStart (dr : DateRange) : Int :=
  dr.fromDate - (dr.toDate - dr.fromDate) * msPerDay

/-- `subDays(dateRange.from, 1)`. -/
def previousPeriodEnd (dr : DateRange) : Int :=
  dr.fromDate - 1 * msPerDay

/-- Bookings whose check-in falls in `[previousPeriodStart, previousPeriodEnd]`. -/
def previousPeriodBookings (bookings : List Booking) (dr : DateRange) : List Booking :=
  bookings.filter fun b =>
    decide (previousPeriodStart dr ≤ b.checkInDate) &&
    decide (b.checkInDate ≤ previousPeriodEnd dr)

/-- `previousTotal ? Math.round(((current - previousTotal) / previousTotal) * 100) : 0`:
the percentage-change formula shared by bookings and revenue changes. -/
def percentChange (current previousTotal : Int) : Int :=
  if previousTotal ≠ 0 then jsRound ((current - previousTotal) * 100) previousTotal
  else 0

/-- `reduce((sum, booking) => sum + (Number(booking.totalAmount) || 0), 0)`. -/
def totalRevenue (l : List Booking) : Int :=
  l.foldl (fun sum b => sum + b.totalAmount) 0

/-- `rooms.filter(room => room.isActive).length`. -/
def activeRoomsCount (rooms : List Room) : Nat :=
  (rooms.filter fun room => room.isActive).length

/-- `new Set(filteredBookings.map(booking => booking.roomId)).size`. -/
def occupiedRoomsCount (l : List Booking) : Nat :=
  ((l.map fun b => b.roomId).eraseDups).length

/-- `activeRooms ? Math.round((occupiedRooms / activeRooms) * 100) : 0`. -/
def occupancyRate (rooms : List Room) (l : List Booking) : Int :=
  if activeRoomsCount rooms ≠ 0 then
    jsRound ((occupiedRoomsCount l : Int) * 100) (activeRoomsCount rooms : Int)
  else 0

/-- One booking's contribution to `totalNights`:
`Math.ceil((checkOut - checkIn) / msPerDay)`, floored to 1 when `≤ 0`
(`nights > 0 ? nights : 1`). -/
def bookingNights (b : Booking) : Int :=
  let nights := jsCeilDiv (b.checkOutDate - b.checkInDate) msPerDay
  if nights > 0 then nights else 1

/-- `filteredBookings.reduce((sum, booking) => sum + (nights > 0 ? nights : 1), 0)`. -/
def totalNights (l : List Booking) : Int :=
  l.foldl (fun sum b => sum + bookingNights b) 0

/-- `totalNights ? Math.round(totalRevenue / totalNights) : 0`. -/
def averageDailyRate (l : List Booking) : Int :=
  if totalNights l ≠ 0 then jsRound (totalRevenue l) (totalNights l) else 0

/-- `activeRooms * Math.ceil((to - from) / msPerDay)`. -/
def totalRoomNights (rooms : List Room) (dr : DateRange) : Int :=
  (activeRoomsCount rooms : Int) * jsCeilDiv (dr.toDate - dr.fromDate) msPerDay

/-- `totalRoomNights ? Math.round(totalRevenue / totalRoomNights) : 0`. -/
def revPAR (rooms : List Room) (l : List Booking) (dr : DateRange) : Int :=
  if totalRoomNights rooms dr ≠ 0 then
    jsRound (totalRevenue l) (totalRoomNights rooms dr)
  else 0

/-- The `reduce`-with-`find`/`push` idiom of the category distributions:
add `amount` to the first entry named `key`, appending a fresh entry when
none exists. -/
def bumpDist (key : String) (amount : Int) : List ChartDataItem → List ChartDataItem
  | [] => [⟨key, amount⟩]
  | item :: rest =>
    if item.name = key then ⟨item.name, item.value + amount⟩ :: rest
    else item :: bumpDist key amount rest

/-- `rooms.reduce(...)`: room count per room type, in first-appearance order. -/
def roomTypeDistribution (rooms : List Room) : List ChartDataItem :=
  rooms.foldl (fun acc room => bumpDist room.roomType 1 acc) []

/-- `booking.bookingSource || 'Direct'` (absent or empty string is falsy). -/
def sourceKey (b : Booking) : String :=
  match b.bookingSource with
  | none => "Direct"
  | some s => if s = "" then "Direct" else s

/-- Booking count per source over the filtered bookings. -/
def bookingSources (l : List Booking) : List ChartDataItem :=
  l.foldl (fun acc b => bumpDist (sourceKey b) 1 acc) []

/-- Booking count per status over the filtered bookings. -/
def bookingStatus (l : List Booking) : List ChartDataItem :=
  l.foldl (fun acc b => bumpDist b.bookingStatus 1 acc) []

/-- The calendar-day bucket of a timestamp (`format(d, 'yyyy-MM-dd')`). -/
def dayIndex (t : Int) : Int := t / msPerDay

/-- The `bookingsByDate` accumulation step: bump count and revenue of the
check-in day's bucket. -/
def bumpDay (b : Booking) : List DayAgg → List DayAgg
  | [] => [⟨dayIndex b.checkInDate, 1, b.totalAmount⟩]
  | d :: rest =>
    if d.day = dayIndex b.checkInDate then
      ⟨d.day, d.count + 1, d.revenue + b.totalAmount⟩ :: rest
    else d :: bumpDay b rest

/-- `bookingsByDate`: per-day count and revenue, first-appearance order. -/
def bookingsByDate (l : List Booking) : List DayAgg :=
  l.foldl (fun acc b => bumpDay b acc) []

/-- Chronological order on day buckets (the `.sort` comparator on dates). -/
def dayLE (a b : DayAgg) : Prop := a.day ≤ b.day

instance : DecidableRel dayLE := fun a b => Int.decLe a.day b.day

instance : IsTotal DayAgg dayLE := ⟨fun a b => Int.le_total a.day b.day⟩

instance : IsTrans DayAgg dayLE := ⟨fun _ _ _ h h' => le_trans h h'⟩

/-- `bookingTrends`: the day buckets sorted chronologically. -/
def bookingTrends (l : List Booking) : List DayAgg :=
  List.insertionSort dayLE (bookingsByDate l)

/-- `revenueTrends`: the `{date, revenue}` projection of `bookingTrends`. -/
def revenueTrends (l : List Booking) : List RevenuePoint :=
  (bookingTrends l).map fun d => ⟨d.day, d.revenue⟩

/-- Revenue per room type over the filtered bookings. -/
def revenueByRoomType (l : List Booking) : List ChartDataItem :=
  l.foldl (fun acc b => bumpDist b.roomType b.totalAmount acc) []

/-- `Number(booking.numberOfGuests) || 1`: absent, `NaN` and `0` all fall back
to 1. -/
def guestCountOfBooking (b : Booking) : Int :=
  match b.numberOfGuests with
  | none => 1
  | some n => if n = 0 then 1 else n

/-- `filteredBookings.reduce((sum, b) => sum + (Number(b.numberOfGuests) || 1), 0)`. -/
def totalGuests (l : List Booking) : Int :=
  l.foldl (fun sum b => sum + guestCountOfBooking b) 0

/-- `new Set(guestEmails).size` over the filtered bookings. -/
def newGuestsCount (l : List Booking) : Nat :=
  ((l.map fun b => b.guest.email).eraseDups).length

/-- `guestTypes`: new (distinct emails) vs returning (the rest, clamped ≥ 0). -/
def guestTypes (l : List Booking) : List ChartDataItem :=
  let newGuests : Int := (newGuestsCount l : Int)
  let returningGuests : Int := (l.length : Int) - newGuests
  [⟨"New", newGuests⟩,
   ⟨"Returning", if returningGuests > 0 then returningGuests else 0⟩]

/-- `guestSatisfaction` mock series: `Math.round(len * frac)`. -/
def guestSatisfaction (l : List Booking) : List ChartDataItem :=
  let len : Int := (l.length : Int)
  [⟨"5 Stars", jsRound (len * 60) 100⟩,
   ⟨"4 Stars", jsRound (len * 30) 100⟩,
   ⟨"3 Stars", jsRound (len * 7) 100⟩,
   ⟨"2 Stars", jsRound (len * 2) 100⟩,
   ⟨"1 Star", jsRound (len * 1) 100⟩]

/-- `guestDemographics` mock series. -/
def guestDemographics (l : List Booking) : List ChartDataItem :=
  let len : Int := (l.length : Int)
  [⟨"United States", jsRound (len * 40) 100⟩,
   ⟨"Canada", jsRound (len * 15) 100⟩,
   ⟨"United Kingdom", jsRound (len * 12) 100⟩,
   ⟨"Australia", jsRound (len * 8) 100⟩,
   ⟨"Germany", jsRound (len * 5) 100⟩,
   ⟨"Other", jsRound (len * 20) 100⟩]

/-- `paymentMethods` mock series. -/
def paymentMethods (l : List Booking) : List ChartDataItem :=
  let len : Int := (l.length : Int)
  [⟨"Credit Card", jsRound (len * 70) 100⟩,
   ⟨"Debit Card", jsRound (len * 15) 100⟩,
   ⟨"PayPal", jsRound (len * 10) 100⟩,
   ⟨"Cash", jsRound (len * 5) 100⟩]

/-- `stayDuration` mock series. -/
def stayDuration (l : List Booking) : List ChartDataItem :=
  let len : Int := (l.length : Int)
  [⟨"1-3 days", jsRound (len * 60) 100⟩,
   ⟨"4-7 days", jsRound (len * 30) 100⟩,
   ⟨"8-14 days", jsRound (len * 7) 100⟩,
   ⟨"15+ days", jsRound (len * 3) 100⟩]

/-- `roomStatus`: room counts for the four status constants. -/
def roomStatus (rooms : List Room) : List ChartDataItem :=
  [⟨"Available", ((rooms.filter fun r => r.status = "AVAILABLE").length : Int)⟩,
   ⟨"Occupied", ((rooms.filter fun r => r.status = "OCCUPIED").length : Int)⟩,
   ⟨"Maintenance", ((rooms.filter fun r => r.status = "MAINTENANCE").length : Int)⟩,
   ⟨"Cleaning", ((rooms.filter fun r => r.status = "CLEANING").length : Int)⟩]

/-- `roomTypePerformance`: filtered-booking count per room type present in
`roomTypeDistribution`. -/
def roomTypePerformance (rooms : List Room) (l : List Booking) : List ChartDataItem :=
  (roomTypeDistribution rooms).map fun t =>
    ⟨t.name, ((l.filter fun b => b.roomType = t.name).length : Int)⟩

/-- `hotel.floorCount || 4` (0 is falsy). -/
def floorCountOf (hotel : Hotel) : Int :=
  match hotel.floorCount with
  | none => 4
  | some k => if k = 0 then 4 else k

/-- `floorOccupancy`: per floor `1..floorCount`, the occupied percentage of
that floor's rooms, or the pseudo-random fill `randFloor` when the floor has
no rooms. -/
def floorOccupancy (hotel : Hotel) (rooms : List Room) (randFloor : Nat → Int) :
    List ChartDataItem :=
  (List.range (floorCountOf hotel).toNat).map fun j =>
    let i : Int := Int.ofNat j + 1
    let floorRooms := rooms.filter fun r => r.floor = some i
    let occupiedFloorRooms := floorRooms.filter fun r => r.status = "OCCUPIED"
    let rate :=
      if floorRooms.length > 0 then
        jsRound ((occupiedFloorRooms.length : Int) * 100) (floorRooms.length : Int)
      else randFloor j
    ⟨"Floor " ++ toString i, rate⟩

/-- The day timestamps the `while (currentDate <= dateRange.to)` loop visits:
`from, from + 1 day, …` up to the last one `≤ to`. -/
def timelineDates (dr : DateRange) : List Int :=
  if dr.fromDate ≤ dr.toDate then
    (List.range (((dr.toDate - dr.fromDate) / msPerDay).toNat + 1)).map
      fun i => dr.fromDate + (i : Int) * msPerDay
  else []

/-- The bookings covering day `d`: `checkIn ≤ d ≤ checkOut`. -/
def dateBookings (l : List Booking) (d : Int) : List Booking :=
  l.filter fun b => decide (b.checkInDate ≤ d) && decide (d ≤ b.checkOutDate)

/-- `occupancyTimeline`: one point per day in range; the rounded percentage of
covering bookings over active rooms, or the pseudo-random fill `randTl`
(indexed by loop iteration) when there are no active rooms. -/
def occupancyTimeline (l : List Booking) (activeRooms : Nat) (dr : DateRange)
    (randTl : Nat → Int) : List OccPoint :=
  (timelineDates dr).enum.map fun p =>
    ⟨p.2,
     if activeRooms > 0 then
       jsRound (((dateBookings l p.2).length : Int) * 100) (activeRooms : Int)
     else randTl p.1⟩

/-- JS `String.prototype.trim`, embedded on the character list; the only
whitespace the name template can introduce is the plain space. -/
def jsTrim (s : String) : String :=
  ⟨((s.data.dropWhile fun c => c = ' ').reverse.dropWhile fun c => c = ' ').reverse⟩

/-- `${firstName || ''} ${lastName || ''}`.trim()`. -/
def displayName (b : Booking) : String :=
  jsTrim (b.guest.firstName ++ " " ++ b.guest.lastName)

/-- Per-email accumulator mirroring the three parallel records
`guestBookingCount` / `guestSpending` / `guestNames` (the name is overwritten
by each booking of that guest, so it ends as the last one's). -/
structure GuestAgg where
  email : String
  count : Int
  spending : Int
  name : String
  deriving DecidableEq, Repr

/-- Fold step over one booking with a non-empty email: bump the entry of that
email, appending a fresh one when none exists. -/
def bumpGuest (b : Booking) : List GuestAgg → List GuestAgg
  | [] => [⟨b.guest.email, 1, b.totalAmount, displayName b⟩]
  | g :: rest =>
    if g.email = b.guest.email then
      ⟨g.email, g.count + 1, g.spending + b.totalAmount, displayName b⟩ :: rest
    else g :: bumpGuest b rest

/-- The grouped per-email stats of the filtered bookings; bookings whose
guest email is empty are skipped (`if (booking.guest?.email)`). -/
def guestAggs (l : List Booking) : List GuestAgg :=
  l.foldl (fun acc b => if b.guest.email = "" then acc else bumpGuest b acc) []

/-- Descending order on total spend (the `.sort((a, b) => b.totalSpent -
a.totalSpent)` comparator). -/
def guestGE (a b : GuestItem) : Prop := b.totalSpent ≤ a.totalSpent

instance : DecidableRel guestGE := fun a b => Int.decLe b.totalSpent a.totalSpent

instance : IsTotal GuestItem guestGE := ⟨fun a b => Int.le_total b.totalSpent a.totalSpent⟩

instance : IsTrans GuestItem guestGE := ⟨fun _ _ _ h h' => le_trans h' h⟩

/-- `topGuests`: the grouped guests (name falling back to `'Guest'` when
empty), sorted descending by spend, truncated to the first 10. -/
def topGuests (l : List Booking) : List GuestItem :=
  (List.insertionSort guestGE
    ((guestAggs l).map fun g =>
      ⟨if g.name = "" then "Guest" else g.name, g.email, g.count, g.spending⟩)).take 10

/-- `hotel.roomCount || rooms.length` (0 is falsy). -/
def totalRoomsOf (hotel : Hotel) (rooms : List Room) : Int :=
  match hotel.roomCount with
  | none => (rooms.length : Int)
  | some k => if k = 0 then (rooms.length : Int) else k

/-- The full aggregation `processGraphQLData`: assembles the dashboard payload
from the hotel, rooms, bookings and date range.  `randFloor` and `randTl` are
the `Math.random()` streams of the floor-occupancy and occupancy-timeline
fallbacks. -/
def processGraphQLData (hotel : Hotel) (rooms : List Room) (bookings : List Booking)
    (dr : DateRange) (randFloor randTl : Nat → Int) : DashboardData :=
  let filtered := filteredBookings bookings dr
  let previous := previousPeriodBookings bookings dr
  { overview :=
      { totalBookings := (filtered.length : Int)
        totalBookingsChange :=
          percentChange (filtered.length : Int) (previous.length : Int)
        occupancyRate := occupancyRate rooms filtered
        occupancyRateChange := 0
        totalRevenue := totalRevenue filtered
        totalRevenueChange := percentChange (totalRevenue filtered) (totalRevenue previous)
        averageDailyRate := averageDailyRate filtered
        averageDailyRateChange := 0
        revPAR := revPAR rooms filtered dr
        totalGuests := totalGuests filtered
        totalRooms := totalRoomsOf hotel rooms }
    recentBookings := filtered
    roomTypeDistribution := roomTypeDistribution rooms
    bookingTrends := bookingTrends filtered
    bookingSources := bookingSources filtered
    bookingStatus := bookingStatus filtered
    roomStatus := roomStatus rooms
    roomTypePerformance := roomTypePerformance rooms filtered
    floorOccupancy := floorOccupancy hotel rooms randFloor
    occupancyTimeline := occupancyTimeline filtered (activeRoomsCount rooms) dr randTl
    guestTypes := guestTypes filtered
    stayDuration := stayDuration filtered
    guestSatisfaction := guestSatisfaction filtered
    topGuests := topGuests filtered
    guestDemographics := guestDemographics filtered
    revenueTrends := revenueTrends filtered
    revenueByRoomType := revenueByRoomType filtered
    paymentMethods := paymentMethods filtered }

end Aggregator

section BookingDetails

/-- Input of `calculateNights`: a date string is empty (falsy), non-empty
but unparseable (yielding `NaN` from `getTime`), or a valid date with a
timestamp. -/
inductive DateStr where
  | empty
  | invalid
  | valid (t : Int)
  deriving DecidableEq, Repr

/-- `calculateNights` of the booking-details panel: 1 when either string is
empty; otherwise `Math.ceil(Math.abs(checkOut - checkIn) / msPerDay) || 1`.
When either date is unparseable the difference is `NaN`, `Math.ceil` keeps it
`NaN`, and `NaN || 1` yields 1. -/
def calculateNights (checkInDate checkOutDate : DateStr) : Int :=
  match checkInDate, checkOutDate with
  | .empty, _ => 1
  | _, .empty => 1
  | .invalid, _ => 1
  | _, .invalid => 1
  | .valid tIn, .valid tOut =>
    let diffDays := jsCeilDiv (|tOut - tIn|) msPerDay
    if diffDays = 0 then 1 else diffDays

end BookingDetails

section SpecSide

/-- Lookup of the accumulated spending of an email in a `GuestAgg` list
(0 when absent), mirroring `guestSpending[email] || 0`. -/
def aggSpend (acc : List GuestAgg) (e : String) : Int :=
  match acc.find? fun g => g.email = e with
  | some g => g.spending
  | none => 0

/-- Lookup of the accumulated booking count of an email (0 when absent). -/
def aggCount (acc : List GuestAgg) (e : String) : Int :=
  match acc.find? fun g => g.email = e with
  | some g => g.count
  | none => 0

/-- Spec-side definition (from the spec's words, for the refinement claim on
top guests): the summed spend of a guest email over a booking list. -/
def guestSpendSpec (l : List Booking) (e : String) : Int :=
  ((l.filter fun b => b.guest.email = e).map fun b => b.totalAmount).sum

/-- Spec-side definition: the booking count of a guest email over a booking
list. -/
def guestCountSpec (l : List Booking) (e : String) : Int :=
  ((l.filter fun b => b.guest.email = e).length : Int)

/-- Spec-side definition (from the spec's words, for the determinism claim):
the occupancy timeline as a pure function of bookings, active-room count and
date range — the rounded percentage of bookings covering each day over the
active rooms, with no random input. -/
def occupancyTimelineDet (l : List Booking) (activeRooms : Nat) (dr : DateRange) :
    List OccPoint :=
  (timelineDates dr).map fun d =>
    ⟨d, jsRound (((dateBookings l d).length : Int) * 100) (activeRooms : Int)⟩

/-- Membership of a path in the protected-path list (exact or prefix match). -/
def isProtectedPath (pathname : String) : Bool :=
  protectedPaths.any fun p => pathMatches pathname p

/-- Membership of a path in the auth-route list (exact or prefix match). -/
def isAuthRoute (pathname : String) : Bool :=
  authRoutes.any fun p => pathMatches pathname p

end SpecSide

section Examples

/-- The all-zero stand-in for the `Math.random()` streams in concrete runs. -/
def zeroStream : Nat → Int := fun _ => 0

/-- A concrete guest. -/
def exGuest : Guest := ⟨"Ada", "Lovelace", "ada@example.com"⟩

/-- A concrete hotel with one floor and one room. -/
def exHotel : Hotel := ⟨"h1", some 1, some 1⟩

/-- A single active room. -/
def exRoom : Room := ⟨"101", "Deluxe", "AVAILABLE", true, some 1⟩

/-- A one-day date range `[day 0, day 1]`. -/
def exDR : DateRange := ⟨0, 86400000⟩

/-- The spec example's booking: total 100, check-in on the range's first day,
one night. -/
def exBooking : Booking :=
  ⟨"b1", "101", exGuest, none, 0, 86400000, "Deluxe", "CONFIRMED", 100, some 2⟩

/-- A second in-range booking referencing a different room than any active
room, used to push the occupancy rate above 100. -/
def cexSecondBooking : Booking :=
  ⟨"b2", "102", exGuest, none, 0, 86400000, "Deluxe", "CONFIRMED", 50, none⟩

/-- A date range `[day 10, day 11]` of length one day. -/
def cexDR : DateRange := ⟨864000000, 950400000⟩

/-- A booking checking in on day 0, ten days before `cexDR.fromDate`. -/
def cexEarlyBooking : Booking :=
  ⟨"b3", "103", exGuest, none, 0, 86400000, "Standard", "PENDING", 50, none⟩

/-- A booking checking in on day 0, ten days before `cexDR.fromDate`, with a
different amount (for the empty-range counterexample). -/
def cexEarlyBooking2 : Booking :=
  ⟨"b4", "104", exGuest, none, 0, 86400000, "Standard", "CONFIRMED", 80, none⟩

/-- A three-night booking with total 100, so that revenue is not divisible by
the room-nights. -/
def cexThreeNightBooking : Booking :=
  ⟨"b5", "101", exGuest, none, 0, 259200000, "Deluxe", "CONFIRMED", 100, none⟩

/-- An in-range booking with total amount 0. -/
def zeroAmountBooking : Booking :=
  ⟨"b6", "105", ⟨"Zero", "Cost", "zero@example.com"⟩, none, 0, 86400000,
   "Standard", "CONFIRMED", 0, none⟩

/-- A booking checking in on day 12, after the `cexDR` range `[day 10, day 11]`
ends: outside the range and outside the baseline window. -/
def outsideLateBooking : Booking :=
  ⟨"b7", "106", exGuest, none, 1036800000, 1123200000, "Deluxe", "CONFIRMED",
   70, none⟩

/-- A booking checking in strictly between the baseline window's end (day 9)
and the start of `cexDR` (day 10): outside the range and outside the baseline
window. -/
def outsideGapBooking : Booking :=
  ⟨"b8", "107", exGuest, none, 800000000, 886400000, "Standard", "PENDING",
   60, none⟩

end Examples

section Lemmas

/-- Folding `+ f x` over a list from any starting value is the starting value
plus the sum of the images: the shape of all the `reduce` sums above. -/
theorem foldl_add_init {α : Type} (f : α → Int) (l : List α) (init : Int) :
    l.foldl (fun sum x => sum + f x) init = init + (l.map f).sum := by
  induction l generalizing init with
  | nil => simp
  | cons x xs ih => simp [ih (init + f x), add_assoc]

/-- `jsRound n d` is within one half of `n / d`, half rounded up: the
two-sided characterisation of JavaScript `Math.round`. -/
theorem jsRound_bounds (n d : Int) (hd : 0 < d) :
    d * (2 * jsRound n d - 1) ≤ 2 * n ∧ 2 * n < d * (2 * jsRound n d + 1) := by
  have h2d : (0 : Int) < 2 * d := by omega
  have hmod₁ : 0 ≤ (2 * n + d) % (2 * d) := Int.emod_nonneg _ (by omega)
  have hmod₂ : (2 * n + d) % (2 * d) < 2 * d := Int.emod_lt_of_pos _ h2d
  have hdm : 2 * d * ((2 * n + d) / (2 * d)) + (2 * n + d) % (2 * d) = 2 * n + d :=
    Int.ediv_add_emod _ _
  unfold jsRound
  constructor <;> nlinarith [hdm, hmod₁, hmod₂]

/-- `Math.round` of a non-negative quotient is non-negative. -/
theorem jsRound_nonneg (n d : Int) (hn : 0 ≤ n) (hd : 0 < d) : 0 ≤ jsRound n d :=
  Int.ediv_nonneg (by omega) (by omega)

/-- `Math.round (n / d) ≤ 100` when `n ≤ 100 * d`. -/
theorem jsRound_le_hundred (n d : Int) (hd : 0 < d) (hn : n ≤ 100 * d) :
    jsRound n d ≤ 100 := by
  have h := (jsRound_bounds n d hd).1
  nlinarith [h]

/-- `jsCeilDiv` of a non-negative numerator is non-negative. -/
theorem jsCeilDiv_nonneg (a b : Int) (ha : 0 ≤ a) (hb : 0 < b) :
    0 ≤ jsCeilDiv a b := by
  unfold jsCeilDiv
  have h : (-a) / b ≤ 0 / b := Int.ediv_le_ediv hb (by omega)
  simp at h
  omega

/-- `aggSpend` looks at the head first. -/
theorem aggSpend_cons (a : GuestAgg) (l : List GuestAgg) (e : String) :
    aggSpend (a :: l) e = if a.email = e then a.spending else aggSpend l e := by
  by_cases h : a.email = e <;> simp [aggSpend, List.find?, h]

/-- `aggCount` looks at the head first. -/
theorem aggCount_cons (a : GuestAgg) (l : List GuestAgg) (e : String) :
    aggCount (a :: l) e = if a.email = e then a.count else aggCount l e := by
  by_cases h : a.email = e <;> simp [aggCount, List.find?, h]

/-- `bumpGuest` adds the booking's amount to exactly its email's spending. -/
theorem aggSpend_bumpGuest (b : Booking) (acc : List GuestAgg) (e : String) :
    aggSpend (bumpGuest b acc) e =
      aggSpend acc e + (if b.guest.email = e then b.totalAmount else 0) := by
  induction acc with
  | nil =>
    by_cases h : b.guest.email = e <;> simp [bumpGuest, aggSpend, List.find?, h]
  | cons a rest ih =>
    simp only [bumpGuest]
    by_cases hg : a.email = b.guest.email
    · rw [if_pos hg, aggSpend_cons, aggSpend_cons]
      by_cases he : a.email = e
      · rw [if_pos he, if_pos he, if_pos (hg.symm.trans he)]
      · have hbe : ¬b.guest.email = e := fun h => he (hg.trans h)
        rw [if_neg he, if_neg he, if_neg hbe, add_zero]
    · rw [if_neg hg, aggSpend_cons, aggSpend_cons]
      by_cases he : a.email = e
      · have hbe : ¬b.guest.email = e := fun h => hg (he.trans h.symm)
        rw [if_pos he, if_pos he, if_neg hbe, add_zero]
      · rw [if_neg he, if_neg he, ih]

/-- `bumpGuest` adds one to exactly its email's booking count. -/
theorem aggCount_bumpGuest (b : Booking) (acc : List GuestAgg) (e : String) :
    aggCount (bumpGuest b acc) e =
      aggCount acc e + (if b.guest.email = e then 1 else 0) := by
  induction acc with
  | nil =>
    by_cases h : b.guest.email = e <;> simp [bumpGuest, aggCount, List.find?, h]
  | cons a rest ih =>
    simp only [bumpGuest]
    by_cases hg : a.email = b.guest.email
    · rw [if_pos hg, aggCount_cons, aggCount_cons]
      by_cases he : a.email = e
      · rw [if_pos he, if_pos he, if_pos (hg.symm.trans he)]
      · have hbe : ¬b.guest.email = e := fun h => he (hg.trans h)
        rw [if_neg he, if_neg he, if_neg hbe, add_zero]
    · rw [if_neg hg, aggCount_cons, aggCount_cons]
      by_cases he : a.email = e
      · have hbe : ¬b.guest.email = e := fun h => hg (he.trans h.symm)
        rw [if_pos he, if_pos he, if_neg hbe, add_zero]
      · rw [if_neg he, if_neg he, ih]

/-- The fold underlying `guestAggs`, over an arbitrary accumulator. -/
def guestFold (l : List Booking) (acc : List GuestAgg) : List GuestAgg :=
  l.foldl (fun acc' b => if b.guest.email = "" then acc' else bumpGuest b acc') acc

theorem guestAggs_eq_guestFold (l : List Booking) : guestAggs l = guestFold l [] := rfl

/-- Accumulated spending after the fold = prior spending + the spec-side sum,
for any non-empty email. -/
theorem aggSpend_guestFold (l : List Booking) (acc : List GuestAgg) (e : String)
    (he : e ≠ "") :
    aggSpend (guestFold l acc) e = aggSpend acc e + guestSpendSpec l e := by
  induction l generalizing acc with
  | nil => simp [guestFold, guestSpendSpec]
  | cons b bs ih =>
    by_cases hb : b.guest.email = ""
    · have hbe : ¬(b.guest.email = e) := fun h => he (h ▸ hb)
      simp only [guestFold, List.foldl_cons, if_pos hb]
      rw [show (bs.foldl (fun acc' b => if b.guest.email = "" then acc'
            else bumpGuest b acc') acc) = guestFold bs acc from rfl, ih acc]
      simp [guestSpendSpec, List.filter_cons, hbe]
    · simp only [guestFold, List.foldl_cons, if_neg hb]
      rw [show (bs.foldl (fun acc' b => if b.guest.email = "" then acc'
            else bumpGuest b acc') (bumpGuest b acc)) = guestFold bs (bumpGuest b acc)
            from rfl, ih (bumpGuest b acc), aggSpend_bumpGuest]
      by_cases hbe : b.guest.email = e <;>
        simp [guestSpendSpec, List.filter_cons, hbe, add_assoc, add_comm,
          add_left_comm]

/-- Accumulated booking count after the fold = prior count + the spec-side
count, for any non-empty email. -/
theorem aggCount_guestFold (l : List Booking) (acc : List GuestAgg) (e : String)
    (he : e ≠ "") :
    aggCount (guestFold l acc) e = aggCount acc e + guestCountSpec l e := by
  induction l generalizing acc with
  | nil => simp [guestFold, guestCountSpec]
  | cons b bs ih =>
    by_cases hb : b.guest.email = ""
    · have hbe : ¬(b.guest.email = e) := fun h => he (h ▸ hb)
      simp only [guestFold, List.foldl_cons, if_pos hb]
      rw [show (bs.foldl (fun acc' b => if b.guest.email = "" then acc'
            else bumpGuest b acc') acc) = guestFold bs acc from rfl, ih acc]
      simp [guestCountSpec, List.filter_cons, hbe]
    · simp only [guestFold, List.foldl_cons, if_neg hb]
      rw [show (bs.foldl (fun acc' b => if b.guest.email = "" then acc'
            else bumpGuest b acc') (bumpGuest b acc)) = guestFold bs (bumpGuest b acc)
            from rfl, ih (bumpGuest b acc), aggCount_bumpGuest]
      by_cases hbe : b.guest.email = e
      · rw [if_pos hbe, guestCountSpec, guestCountSpec,
          List.filter_cons_of_pos (by simp [hbe]), List.length_cons]
        push_cast
        ring
      · rw [if_neg hbe, guestCountSpec, guestCountSpec,
          List.filter_cons_of_neg (by simp [hbe])]
        ring

/-- Every entry of `bumpGuest b acc` carries either an email already present
in `acc` or the booking's email. -/
theorem email_mem_bumpGuest (b : Booking) (acc : List GuestAgg) :
    ∀ g ∈ bumpGuest b acc,
      g.email ∈ acc.map GuestAgg.email ∨ g.email = b.guest.email := by
  induction acc with
  | nil =>
    intro g hg
    simp only [bumpGuest, List.mem_singleton] at hg
    exact Or.inr (by rw [hg])
  | cons a rest ih =>
    intro g hg
    by_cases ha : a.email = b.guest.email
    · rw [show bumpGuest b (a :: rest) =
          ⟨a.email, a.count + 1, a.spending + b.totalAmount, displayName b⟩ :: rest
          from by simp [bumpGuest, ha]] at hg
      rcases List.mem_cons.mp hg with h1 | h1
      · left
        rw [h1]
        simp
      · left
        simp only [List.map_cons, List.mem_cons]
        exact Or.inr (List.mem_map.mpr ⟨g, h1, rfl⟩)
    · rw [show bumpGuest b (a :: rest) = a :: bumpGuest b rest
          from by simp [bumpGuest, ha]] at hg
      rcases List.mem_cons.mp hg with h1 | h1
      · left
        rw [h1]
        simp
      · rcases ih g h1 with h2 | h2
        · left
          simp only [List.map_cons, List.mem_cons]
          exact Or.inr h2
        · exact Or.inr h2

/-- `bumpGuest` preserves `Nodup` of the email list. -/
theorem nodup_email_bumpGuest (b : Booking) (acc : List GuestAgg)
    (h : (acc.map GuestAgg.email).Nodup) :
    ((bumpGuest b acc).map GuestAgg.email).Nodup := by
  induction acc with
  | nil => simp [bumpGuest]
  | cons a rest ih =>
    simp only [List.map_cons, List.nodup_cons] at h
    by_cases ha : a.email = b.guest.email
    · rw [show bumpGuest b (a :: rest) =
          ⟨a.email, a.count + 1, a.spending + b.totalAmount, displayName b⟩ :: rest
          from by simp [bumpGuest, ha]]
      simpa using h
    · rw [show bumpGuest b (a :: rest) = a :: bumpGuest b rest
          from by simp [bumpGuest, ha]]
      simp only [List.map_cons, List.nodup_cons]
      refine ⟨fun hmem => ?_, ih h.2⟩
      simp only [List.mem_map] at hmem
      obtain ⟨g, hg, hge⟩ := hmem
      rcases email_mem_bumpGuest b rest g hg with hm | hm
      · exact h.1 (hge ▸ hm)
      · exact ha (hge.symm.trans hm)

/-- Emails stay non-empty through `bumpGuest` when the booking's email is
non-empty. -/
theorem email_ne_bumpGuest (b : Booking) (acc : List GuestAgg)
    (hb : b.guest.email ≠ "") (h : ∀ g ∈ acc, g.email ≠ "") :
    ∀ g ∈ bumpGuest b acc, g.email ≠ "" := by
  intro g hg
  rcases email_mem_bumpGuest b acc g hg with hm | hm
  · simp only [List.mem_map] at hm
    obtain ⟨x, hx, hxe⟩ := hm
    exact hxe ▸ h x hx
  · exact hm ▸ hb

/-- The fold keeps emails `Nodup` and non-empty. -/
theorem guestFold_invariant (l : List Booking) (acc : List GuestAgg)
    (h1 : (acc.map GuestAgg.email).Nodup) (h2 : ∀ g ∈ acc, g.email ≠ "") :
    ((guestFold l acc).map GuestAgg.email).Nodup ∧
      ∀ g ∈ guestFold l acc, g.email ≠ "" := by
  induction l generalizing acc with
  | nil => exact ⟨h1, h2⟩
  | cons b bs ih =>
    by_cases hb : b.guest.email = ""
    · simpa [guestFold, List.foldl_cons, if_pos hb] using ih acc h1 h2
    · simpa [guestFold, List.foldl_cons, if_neg hb] using
        ih (bumpGuest b acc) (nodup_email_bumpGuest b acc h1)
          (email_ne_bumpGuest b acc hb h2)

/-- In a list with `Nodup` emails, `find?` at a member's email returns that
member. -/
theorem find?_eq_of_mem_nodup (acc : List GuestAgg)
    (h : (acc.map GuestAgg.email).Nodup) :
    ∀ g ∈ acc, (acc.find? fun x => x.email = g.email) = some g := by
  induction acc with
  | nil => intro g hg; cases hg
  | cons a rest ih =>
    intro g hg
    simp only [List.map_cons, List.nodup_cons] at h
    rcases List.mem_cons.mp hg with hg' | hg'
    · subst hg'
      exact List.find?_cons_of_pos _ (by simp)
    · have ha : a.email ≠ g.email := by
        intro he
        exact h.1 (he ▸ List.mem_map.mpr ⟨g, hg', rfl⟩)
      rw [List.find?_cons_of_neg _ (by simpa using ha)]
      exact ih h.2 g hg'

/-- Every aggregated guest entry records exactly the spec-side spend and
count of its email over the folded bookings. -/
theorem guestAggs_spec (l : List Booking) (g : GuestAgg) (hg : g ∈ guestAggs l) :
    g.email ≠ "" ∧ g.spending = guestSpendSpec l g.email ∧
      g.count = guestCountSpec l g.email := by
  have hinv := guestFold_invariant l [] (by simp) (by simp)
  rw [guestAggs_eq_guestFold] at hg
  have hne : g.email ≠ "" := hinv.2 g hg
  have hfind := find?_eq_of_mem_nodup (guestFold l []) hinv.1 g hg
  have hspend := aggSpend_guestFold l [] g.email hne
  have hcount := aggCount_guestFold l [] g.email hne
  rw [aggSpend, hfind] at hspend
  rw [aggCount, hfind] at hcount
  simp [aggSpend, aggCount, List.find?] at hspend hcount
  exact ⟨hne, hspend, hcount⟩

/-- Mapping only the payload out of `enumFrom` forgets the indices. -/
theorem map_snd_enumFrom {α β : Type} (f : α → β) (l : List α) (n : Nat) :
    (List.enumFrom n l).map (fun p => f p.2) = l.map f := by
  induction l generalizing n with
  | nil => rfl
  | cons x xs ih => simp [List.enumFrom, ih]

/-- Sanity check of the `Math.ceil` embedding on concrete quotients. -/
theorem jsCeilDiv_checks :
    jsCeilDiv 86400000 86400000 = 1 ∧ jsCeilDiv 1 86400000 = 1 ∧
    jsCeilDiv 0 86400000 = 0 := by
  decide

/-- Sanity check of the `Math.round` embedding on concrete quotients,
including the negative half case (`Math.round (-0.5) = 0`). -/
theorem jsRound_checks :
    jsRound 100 1 = 100 ∧ jsRound 1 2 = 1 ∧ jsRound (-1) 2 = 0 ∧
    jsRound (-100) 1 = -100 ∧ jsRound 100 3 = 33 := by
  decide

end Lemmas

section Claims

/-- C7: for every request path and token state, the middleware decides exactly
one of three outcomes: a protected path without a token redirects to `/login`
with the path as `callbackUrl`; an auth route with a token redirects to
`/dashboard`; everything else proceeds.  Membership is exact match or prefix
match against the fixed configuration lists. -/
theorem middleware_three_outcomes (pathname : String) (hasToken : Bool) :
    (isProtectedPath pathname = true ∧ hasToken = false →
      middleware pathname hasToken = .redirectLogin pathname) ∧
    (isAuthRoute pathname = true ∧ hasToken = true →
      middleware pathname hasToken = .redirectDashboard) ∧
    (¬(isProtectedPath pathname = true ∧ hasToken = false) ∧
        ¬(isAuthRoute pathname = true ∧ hasToken = true) →
      middleware pathname hasToken = .next) := by
  unfold middleware isProtectedPath isAuthRoute
  cases hasToken <;>
    by_cases hp : protectedPaths.any (fun p => pathMatches pathname p) = true <;>
    by_cases ha : authRoutes.any (fun p => pathMatches pathname p) = true <;>
    simp [hp, ha]

/-- Witness for C7: the three outcomes at concrete inputs. -/
theorem middleware_three_outcomes_witness :
    middleware "/dashboard/stats" false = .redirectLogin "/dashboard/stats" ∧
    middleware "/login" true = .redirectDashboard ∧
    middleware "/about" true = .next :=
  ⟨(middleware_three_outcomes "/dashboard/stats" false).1 ⟨by decide, rfl⟩,
   (middleware_three_outcomes "/login" true).2.1 ⟨by decide, rfl⟩,
   (middleware_three_outcomes "/about" true).2.2 ⟨by decide, by decide⟩⟩

/-- C10: `calculateNights` returns an integer ≥ 1 for every pair of date
strings; it returns 1 when either string is empty; thanks to the absolute
difference it is still ≥ 1 when check-out precedes check-in; and it returns
1 when the two dates are equal. -/
theorem calculateNights_at_least_one :
    (∀ dIn dOut : DateStr, 1 ≤ calculateNights dIn dOut) ∧
    (∀ d : DateStr, calculateNights .empty d = 1 ∧ calculateNights d .empty = 1) ∧
    (∀ tIn tOut : Int, tOut < tIn → 1 ≤ calculateNights (.valid tIn) (.valid tOut)) ∧
    (∀ t : Int, calculateNights (.valid t) (.valid t) = 1) := by
  have hpos : ∀ tIn tOut : Int, 1 ≤ calculateNights (.valid tIn) (.valid tOut) := by
    intro tIn tOut
    have h0 : 0 ≤ jsCeilDiv |tOut - tIn| msPerDay :=
      jsCeilDiv_nonneg _ _ (abs_nonneg _) (by norm_num [msPerDay])
    simp only [calculateNights]
    split <;> omega
  refine ⟨fun dIn dOut => ?_, fun d => ?_, fun tIn tOut _ => hpos tIn tOut, fun t => ?_⟩
  · cases dIn <;> cases dOut <;> first
      | exact hpos _ _
      | simp [calculateNights]
  · cases d <;> simp [calculateNights]
  · simp [calculateNights, jsCeilDiv]

/-- Witness for C10: a check-out one day *before* check-in still yields one
night, and the remaining parts at concrete dates. -/
theorem calculateNights_at_least_one_witness :
    1 ≤ calculateNights (.valid 86400000) (.valid 0) ∧
    calculateNights .empty (.valid 0) = 1 ∧
    calculateNights (.valid 86400000) (.valid 86400000) = 1 :=
  ⟨calculateNights_at_least_one.2.2.1 86400000 0 (by decide),
   (calculateNights_at_least_one.2.1 (.valid 0)).1,
   calculateNights_at_least_one.2.2.2 86400000⟩

/-- C5: on the spec's example input — one booking of total 100 checking in on
the first day of a one-day range, one active room — the overview reports
occupancy rate 100, ADR 100 and RevPAR 100. -/
theorem example_one_booking_metrics :
    (processGraphQLData exHotel [exRoom] [exBooking] exDR zeroStream
        zeroStream).overview.occupancyRate = 100 ∧
    (processGraphQLData exHotel [exRoom] [exBooking] exDR zeroStream
        zeroStream).overview.averageDailyRate = 100 ∧
    (processGraphQLData exHotel [exRoom] [exBooking] exDR zeroStream
        zeroStream).overview.revPAR = 100 := by
  decide

/-- C2: the baseline window is not one of the same length as the range.  For
the one-day range `[day 10, day 11]`, the source computes the previous period
as `subDays(from, to - from)` with the difference in *milliseconds*, so the
window stretches 86 400 000 days back instead of one; a booking checking in a
full ten days before `from` is counted in the baseline (the claimed same-length
window ending the day before `from` could not contain it), which drives
`totalBookingsChange` to −100 instead of the 0 a booking-free baseline would
give. -/
theorem previousPeriod_window_eval :
    previousPeriodEnd cexDR = cexDR.fromDate - msPerDay ∧
    previousPeriodStart cexDR = cexDR.fromDate - 86400000 * msPerDay ∧
    cexDR.fromDate - cexEarlyBooking.checkInDate = 10 * msPerDay ∧
    previousPeriodBookings [cexEarlyBooking] cexDR = [cexEarlyBooking] ∧
    (processGraphQLData exHotel [exRoom] [cexEarlyBooking] cexDR zeroStream
        zeroStream).overview.totalBookingsChange = -100 := by
  decide

/-- Counterexample to C1 as stated: one active room and two in-range bookings
referencing distinct rooms yield an occupancy rate of 200 > 100. -/
theorem occupancyRate_exceeds_100_cex :
    activeRoomsCount [exRoom] = 1 ∧
    (processGraphQLData exHotel [exRoom] [exBooking, cexSecondBooking] exDR
        zeroStream zeroStream).overview.occupancyRate = 200 := by
  decide

/-- C1 (amended): with at least one active room the occupancy rate is always
≥ 0, and it is ≤ 100 whenever the distinct room references among the filtered
bookings do not outnumber the active rooms. -/
theorem occupancyRate_bounds_amended (hotel : Hotel) (rooms : List Room)
    (bookings : List Booking) (dr : DateRange) (rf rt : Nat → Int)
    (h : 0 < activeRoomsCount rooms) :
    0 ≤ (processGraphQLData hotel rooms bookings dr rf rt).overview.occupancyRate ∧
    (occupiedRoomsCount (filteredBookings bookings dr) ≤ activeRoomsCount rooms →
      (processGraphQLData hotel rooms bookings dr rf
        rt).overview.occupancyRate ≤ 100) := by
  have hne : activeRoomsCount rooms ≠ 0 := Nat.pos_iff_ne_zero.mp h
  have hproj : (processGraphQLData hotel rooms bookings dr rf
      rt).overview.occupancyRate = occupancyRate rooms (filteredBookings bookings dr) :=
    rfl
  rw [hproj, occupancyRate, if_pos hne]
  have hd : (0 : Int) < (activeRoomsCount rooms : Int) := by exact_mod_cast h
  constructor
  · exact jsRound_nonneg _ _
      (mul_nonneg (Int.natCast_nonneg _) (by norm_num)) hd
  · intro hle
    have hle' : ((occupiedRoomsCount (filteredBookings bookings dr) : Int)) ≤
        (activeRoomsCount rooms : Int) := by exact_mod_cast hle
    exact jsRound_le_hundred _ _ hd (by nlinarith)

/-- Witness for C1 (amended): both bounds at a concrete input with one active
room and one booking. -/
theorem occupancyRate_bounds_witness :
    0 ≤ (processGraphQLData exHotel [exRoom] [exBooking] exDR zeroStream
        zeroStream).overview.occupancyRate ∧
    (processGraphQLData exHotel [exRoom] [exBooking] exDR zeroStream
        zeroStream).overview.occupancyRate ≤ 100 :=
  ⟨(occupancyRate_bounds_amended exHotel [exRoom] [exBooking] exDR zeroStream
      zeroStream (by decide)).1,
   (occupancyRate_bounds_amended exHotel [exRoom] [exBooking] exDR zeroStream
      zeroStream (by decide)).2 (by decide)⟩

/-- Counterexample to C3 as stated: a booking outside the range (ten days
before `from`) leaves the filtered set empty, yet both percentage-change
metrics are −100, not 0, because the booking lands in the (overlong) previous
period. -/
theorem emptyRange_change_nonzero_cex :
    filteredBookings [cexEarlyBooking2] cexDR = [] ∧
    (processGraphQLData exHotel [exRoom] [cexEarlyBooking2] cexDR zeroStream
        zeroStream).overview.totalBookingsChange = -100 ∧
    (processGraphQLData exHotel [exRoom] [cexEarlyBooking2] cexDR zeroStream
        zeroStream).overview.totalRevenueChange = -100 := by
  decide

/-- C3 (amended): when no booking's check-in falls inside `[from, to]`, every
count and sum derived from the filtered bookings is 0 (or the empty series),
regardless of bookings outside the range; the two percentage-change metrics
are additionally 0 provided no booking falls in the comparison baseline
either. -/
theorem emptyRange_zero_amended (hotel : Hotel) (rooms : List Room)
    (bookings : List Booking) (dr : DateRange) (rf rt : Nat → Int)
    (h : ∀ b ∈ bookings,
      ¬(dr.fromDate ≤ b.checkInDate ∧ b.checkInDate ≤ dr.toDate)) :
    (processGraphQLData hotel rooms bookings dr rf rt).overview.totalBookings = 0 ∧
    (processGraphQLData hotel rooms bookings dr rf rt).overview.totalRevenue = 0 ∧
    (processGraphQLData hotel rooms bookings dr rf rt).overview.totalGuests = 0 ∧
    (processGraphQLData hotel rooms bookings dr rf rt).recentBookings = [] ∧
    (processGraphQLData hotel rooms bookings dr rf rt).bookingSources = [] ∧
    (processGraphQLData hotel rooms bookings dr rf rt).bookingStatus = [] ∧
    (processGraphQLData hotel rooms bookings dr rf rt).bookingTrends = [] ∧
    (processGraphQLData hotel rooms bookings dr rf rt).revenueTrends = [] ∧
    (processGraphQLData hotel rooms bookings dr rf rt).revenueByRoomType = [] ∧
    (processGraphQLData hotel rooms bookings dr rf rt).topGuests = [] ∧
    (∀ item ∈ (processGraphQLData hotel rooms bookings dr rf rt).roomTypePerformance,
      item.value = 0) ∧
    (∀ item ∈ (processGraphQLData hotel rooms bookings dr rf rt).guestTypes,
      item.value = 0) ∧
    (∀ item ∈ (processGraphQLData hotel rooms bookings dr rf rt).guestSatisfaction,
      item.value = 0) ∧
    (∀ item ∈ (processGraphQLData hotel rooms bookings dr rf rt).guestDemographics,
      item.value = 0) ∧
    (∀ item ∈ (processGraphQLData hotel rooms bookings dr rf rt).stayDuration,
      item.value = 0) ∧
    (∀ item ∈ (processGraphQLData hotel rooms bookings dr rf rt).paymentMethods,
      item.value = 0) ∧
    ((∀ b ∈ bookings,
        ¬(previousPeriodStart dr ≤ b.checkInDate ∧
          b.checkInDate ≤ previousPeriodEnd dr)) →
      (processGraphQLData hotel rooms bookings dr rf rt).overview.totalBookingsChange = 0 ∧
      (processGraphQLData hotel rooms bookings dr rf rt).overview.totalRevenueChange = 0) := by
  have hf : filteredBookings bookings dr = [] := by
    rw [filteredBookings, List.filter_eq_nil_iff]
    intro b hbm
    simpa using h b hbm
  refine ⟨?_, ?_, ?_, ?_, ?_, ?_, ?_, ?_, ?_, ?_, ?_, ?_, ?_, ?_, ?_, ?_, ?_⟩
  · show ((filteredBookings bookings dr).length : Int) = 0
    rw [hf]; rfl
  · show totalRevenue (filteredBookings bookings dr) = 0
    rw [hf]; rfl
  · show totalGuests (filteredBookings bookings dr) = 0
    rw [hf]; rfl
  · show filteredBookings bookings dr = []
    exact hf
  · show bookingSources (filteredBookings bookings dr) = []
    rw [hf]; rfl
  · show bookingStatus (filteredBookings bookings dr) = []
    rw [hf]; rfl
  · show bookingTrends (filteredBookings bookings dr) = []
    rw [hf]; rfl
  · show revenueTrends (filteredBookings bookings dr) = []
    rw [hf]; rfl
  · show revenueByRoomType (filteredBookings bookings dr) = []
    rw [hf]; rfl
  · show topGuests (filteredBookings bookings dr) = []
    rw [hf]; rfl
  · show ∀ item ∈ roomTypePerformance rooms (filteredBookings bookings dr),
      item.value = 0
    rw [hf]
    intro item him
    rcases List.mem_map.mp him with ⟨t, ht, rfl⟩
    rfl
  · show ∀ item ∈ guestTypes (filteredBookings bookings dr), item.value = 0
    rw [hf]; decide
  · show ∀ item ∈ guestSatisfaction (filteredBookings bookings dr), item.value = 0
    rw [hf]; decide
  · show ∀ item ∈ guestDemographics (filteredBookings bookings dr), item.value = 0
    rw [hf]; decide
  · show ∀ item ∈ stayDuration (filteredBookings bookings dr), item.value = 0
    rw [hf]; decide
  · show ∀ item ∈ paymentMethods (filteredBookings bookings dr), item.value = 0
    rw [hf]; decide
  · intro h2
    have hp : previousPeriodBookings bookings dr = [] := by
      rw [previousPeriodBookings, List.filter_eq_nil_iff]
      intro b hbm
      simpa using h2 b hbm
    constructor
    · show percentChange ((filteredBookings bookings dr).length : Int)
        ((previousPeriodBookings bookings dr).length : Int) = 0
      rw [hf, hp]; rfl
    · show percentChange (totalRevenue (filteredBookings bookings dr))
        (totalRevenue (previousPeriodBookings bookings dr)) = 0
      rw [hf, hp]; rfl

/-- Witness for C3 (amended): two bookings exist outside the range `cexDR` —
one after it ends, one in the gap between the baseline window and `from` —
yet all counts and both change metrics are 0. -/
theorem emptyRange_zero_witness :
    (processGraphQLData exHotel [exRoom] [outsideLateBooking, outsideGapBooking]
        cexDR zeroStream zeroStream).overview.totalBookings = 0 ∧
    (processGraphQLData exHotel [exRoom] [outsideLateBooking, outsideGapBooking]
        cexDR zeroStream zeroStream).overview.totalRevenue = 0 ∧
    (processGraphQLData exHotel [exRoom] [outsideLateBooking, outsideGapBooking]
        cexDR zeroStream zeroStream).topGuests = [] ∧
    (processGraphQLData exHotel [exRoom] [outsideLateBooking, outsideGapBooking]
        cexDR zeroStream zeroStream).overview.totalBookingsChange = 0 ∧
    (processGraphQLData exHotel [exRoom] [outsideLateBooking, outsideGapBooking]
        cexDR zeroStream zeroStream).overview.totalRevenueChange = 0 := by
  have h := emptyRange_zero_amended exHotel [exRoom]
    [outsideLateBooking, outsideGapBooking] cexDR zeroStream zeroStream (by decide)
  have hch := h.2.2.2.2.2.2.2.2.2.2.2.2.2.2.2.2 (by decide)
  exact ⟨h.1, h.2.1, h.2.2.2.2.2.2.2.2.2.1, hch.1, hch.2⟩

/-- Counterexample to C4 as stated: revenue 100 over 3 room-nights gives the
rounded ADR 33, which is not the exact quotient (33 · 3 ≠ 100). -/
theorem averageDailyRate_exact_div_cex :
    totalRevenue (filteredBookings [cexThreeNightBooking] exDR) = 100 ∧
    totalNights (filteredBookings [cexThreeNightBooking] exDR) = 3 ∧
    (processGraphQLData exHotel [exRoom] [cexThreeNightBooking] exDR zeroStream
        zeroStream).overview.averageDailyRate = 33 ∧
    (processGraphQLData exHotel [exRoom] [cexThreeNightBooking] exDR zeroStream
        zeroStream).overview.averageDailyRate *
      totalNights (filteredBookings [cexThreeNightBooking] exDR) ≠
        totalRevenue (filteredBookings [cexThreeNightBooking] exDR) := by
  decide

/-- C4 (amended): each filtered booking contributes `max 1 ⌈nights⌉`
room-nights; the ADR is 0 when the room-nights total is 0, and otherwise it is
the total filtered revenue divided by the room-nights *rounded to the nearest
integer* (half up): it is within half a room-night's revenue of the exact
quotient. -/
theorem averageDailyRate_rounded_amended (hotel : Hotel) (rooms : List Room)
    (bookings : List Booking) (dr : DateRange) (rf rt : Nat → Int) :
    totalNights (filteredBookings bookings dr) =
      ((filteredBookings bookings dr).map fun b =>
        max 1 (jsCeilDiv (b.checkOutDate - b.checkInDate) msPerDay)).sum ∧
    (totalNights (filteredBookings bookings dr) = 0 →
      (processGraphQLData hotel rooms bookings dr rf
        rt).overview.averageDailyRate = 0) ∧
    (0 < totalNights (filteredBookings bookings dr) →
      totalNights (filteredBookings bookings dr) *
          (2 * (processGraphQLData hotel rooms bookings dr rf
            rt).overview.averageDailyRate - 1) ≤
        2 * totalRevenue (filteredBookings bookings dr) ∧
      2 * totalRevenue (filteredBookings bookings dr) <
        totalNights (filteredBookings bookings dr) *
          (2 * (processGraphQLData hotel rooms bookings dr rf
            rt).overview.averageDailyRate + 1)) := by
  have hproj : (processGraphQLData hotel rooms bookings dr rf
      rt).overview.averageDailyRate = averageDailyRate (filteredBookings bookings dr) :=
    rfl
  refine ⟨?_, ?_, ?_⟩
  · rw [totalNights, foldl_add_init, zero_add]
    congr 1
  · intro h0
    rw [hproj, averageDailyRate, if_neg (by simp [h0])]
  · intro hpos
    rw [hproj, averageDailyRate, if_pos (ne_of_gt hpos)]
    exact jsRound_bounds (totalRevenue (filteredBookings bookings dr))
      (totalNights (filteredBookings bookings dr)) hpos

/-- Witness for C4 (amended): the rounding bracket at the 100-over-3 input. -/
theorem averageDailyRate_rounded_witness :
    totalNights (filteredBookings [cexThreeNightBooking] exDR) *
        (2 * (processGraphQLData exHotel [exRoom] [cexThreeNightBooking] exDR
          zeroStream zeroStream).overview.averageDailyRate - 1) ≤
      2 * totalRevenue (filteredBookings [cexThreeNightBooking] exDR) ∧
    2 * totalRevenue (filteredBookings [cexThreeNightBooking] exDR) <
      totalNights (filteredBookings [cexThreeNightBooking] exDR) *
        (2 * (processGraphQLData exHotel [exRoom] [cexThreeNightBooking] exDR
          zeroStream zeroStream).overview.averageDailyRate + 1) :=
  (averageDailyRate_rounded_amended exHotel [exRoom] [cexThreeNightBooking] exDR
    zeroStream zeroStream).2.2 (by decide)

/-- C6: the top-guest list groups the filtered bookings by (non-empty) guest
email — each entry's spend and booking count are exactly the per-email sums —
and it has length at most 10 and is sorted in descending order of total
spend. -/
theorem topGuests_grouped_sorted_top10 (hotel : Hotel) (rooms : List Room)
    (bookings : List Booking) (dr : DateRange) (rf rt : Nat → Int) :
    (processGraphQLData hotel rooms bookings dr rf rt).topGuests.length ≤ 10 ∧
    List.Sorted guestGE (processGraphQLData hotel rooms bookings dr rf rt).topGuests ∧
    ∀ g ∈ (processGraphQLData hotel rooms bookings dr rf rt).topGuests,
      g.email ≠ "" ∧
      g.totalSpent = guestSpendSpec (filteredBookings bookings dr) g.email ∧
      g.bookings = guestCountSpec (filteredBookings bookings dr) g.email := by
  have hproj : (processGraphQLData hotel rooms bookings dr rf rt).topGuests =
      topGuests (filteredBookings bookings dr) := rfl
  rw [hproj, topGuests]
  refine ⟨?_, ?_, ?_⟩
  · rw [List.length_take]
    exact min_le_left _ _
  · exact List.Pairwise.sublist (List.take_sublist _ _)
      (List.sorted_insertionSort _ _)
  · intro g hg
    have hg1 := List.take_subset _ _ hg
    have hg2 := (List.perm_insertionSort guestGE _).mem_iff.mp hg1
    rcases List.mem_map.mp hg2 with ⟨ga, hga, rfl⟩
    obtain ⟨hne, hsp, hct⟩ := guestAggs_spec (filteredBookings bookings dr) ga hga
    exact ⟨hne, hsp, hct⟩

/-- Witness for C6: the grouped entry for the single example booking. -/
theorem topGuests_witness :
    (⟨"Ada Lovelace", "ada@example.com", 1, 100⟩ : GuestItem).email ≠ "" ∧
    (⟨"Ada Lovelace", "ada@example.com", 1, 100⟩ : GuestItem).totalSpent =
      guestSpendSpec (filteredBookings [exBooking] exDR)
        (⟨"Ada Lovelace", "ada@example.com", 1, 100⟩ : GuestItem).email ∧
    (⟨"Ada Lovelace", "ada@example.com", 1, 100⟩ : GuestItem).bookings =
      guestCountSpec (filteredBookings [exBooking] exDR)
        (⟨"Ada Lovelace", "ada@example.com", 1, 100⟩ : GuestItem).email :=
  (topGuests_grouped_sorted_top10 exHotel [exRoom] [exBooking] exDR zeroStream
    zeroStream).2.2 ⟨"Ada Lovelace", "ada@example.com", 1, 100⟩ (by decide)

/-- C8: with at least one active room, every occupancy-timeline entry is the
deterministic rounded percentage of the filtered bookings covering that day
over the active rooms, so runs with different pseudo-random streams agree;
the random fill can only be used when the active-room count is 0. -/
theorem occupancyTimeline_deterministic (hotel : Hotel) (rooms : List Room)
    (bookings : List Booking) (dr : DateRange)
    (h : 0 < activeRoomsCount rooms) :
    (∀ rf rt : Nat → Int,
      (processGraphQLData hotel rooms bookings dr rf rt).occupancyTimeline =
        occupancyTimelineDet (filteredBookings bookings dr)
          (activeRoomsCount rooms) dr) ∧
    (∀ rf1 rt1 rf2 rt2 : Nat → Int,
      (processGraphQLData hotel rooms bookings dr rf1 rt1).occupancyTimeline =
        (processGraphQLData hotel rooms bookings dr rf2 rt2).occupancyTimeline) := by
  have key : ∀ rt : Nat → Int,
      occupancyTimeline (filteredBookings bookings dr) (activeRoomsCount rooms)
          dr rt =
        occupancyTimelineDet (filteredBookings bookings dr)
          (activeRoomsCount rooms) dr := by
    intro rt
    rw [occupancyTimeline, occupancyTimelineDet, List.enum]
    simp only [if_pos h]
    exact map_snd_enumFrom
      (fun d => (⟨d, jsRound (((dateBookings (filteredBookings bookings dr)
        d).length : Int) * 100) ((activeRoomsCount rooms : Int))⟩ : OccPoint))
      (timelineDates dr) 0
  exact ⟨fun rf rt => key rt,
    fun rf1 rt1 rf2 rt2 => (key rt1).trans (key rt2).symm⟩

/-- Witness for C8: two runs with different random streams coincide on the
example input, which has one active room. -/
theorem occupancyTimeline_deterministic_witness :
    (processGraphQLData exHotel [exRoom] [exBooking] exDR (fun _ => 3)
        (fun _ => 17)).occupancyTimeline =
      (processGraphQLData exHotel [exRoom] [exBooking] exDR zeroStream
        zeroStream).occupancyTimeline :=
  (occupancyTimeline_deterministic exHotel [exRoom] [exBooking] exDR
    (by decide)).2 (fun _ => 3) (fun _ => 17) zeroStream zeroStream

/-- C9: appending a booking of total amount 0 leaves both monetary reductions
— the filtered-period revenue sum and the previous-period revenue sum — and
the reported overview revenue unchanged. -/
theorem zero_amount_booking_revenue_identity (bookings : List Booking)
    (b : Booking) (dr : DateRange) (hb : b.totalAmount = 0) :
    totalRevenue (filteredBookings (bookings ++ [b]) dr) =
      totalRevenue (filteredBookings bookings dr) ∧
    totalRevenue (previousPeriodBookings (bookings ++ [b]) dr) =
      totalRevenue (previousPeriodBookings bookings dr) ∧
    ∀ (hotel : Hotel) (rooms : List Room) (rf rt : Nat → Int),
      (processGraphQLData hotel rooms (bookings ++ [b]) dr rf
          rt).overview.totalRevenue =
        (processGraphQLData hotel rooms bookings dr rf rt).overview.totalRevenue := by
  have key : ∀ p : Booking → Bool,
      totalRevenue ((bookings ++ [b]).filter p) =
        totalRevenue (bookings.filter p) := by
    intro p
    rw [totalRevenue, totalRevenue, foldl_add_init, foldl_add_init,
      List.filter_append]
    cases hc : p b
    · simp [List.filter, hc]
    · simp [List.filter, hc, hb]
  exact ⟨key _, key _, fun hotel rooms rf rt => key _⟩

/-- Witness for C9: appending the zero-amount booking to the example booking
keeps both sums. -/
theorem zero_amount_booking_revenue_witness :
    totalRevenue (filteredBookings ([exBooking] ++ [zeroAmountBooking]) exDR) =
      totalRevenue (filteredBookings [exBooking] exDR) ∧
    totalRevenue (previousPeriodBookings ([exBooking] ++ [zeroAmountBooking]) exDR) =
      totalRevenue (previousPeriodBookings [exBooking] exDR) :=
  ⟨(zero_amount_booking_revenue_identity [exBooking] zeroAmountBooking exDR rfl).1,
   (zero_amount_booking_revenue_identity [exBooking] zeroAmountBooking exDR rfl).2.1⟩

end Claims
